import Mathlib

/-
Verification of the distill-cli job pipeline (src/main.rs) against its
natural-language specification.  The Rust program is shallowly embedded:
pure decision logic (output-type resolution, filename extension parsing,
summary-section classification, region mapping) is translated directly,
and the effectful `main` is modelled as a function `runMain` over an
explicit collaborator environment `Env` that returns the job result
together with a trace of collaborator-call and print events.
-/

namespace Distill

/-- The newline character (written symbolically throughout). -/
def nlChar : Char := Char.ofNat 10

/-- The carriage-return character. -/
def crChar : Char := Char.ofNat 13

/-- Output sink kinds, from `enum OutputType` in src/main.rs. -/
inductive OutputType where
  | Terminal
  | Text
  | Word
  | Markdown
  | Slack
deriving DecidableEq, Repr

/-- Display strings, from `impl Display for OutputType`. -/
def OutputType.display : OutputType → String
  | .Terminal => "terminal"
  | .Text => "text"
  | .Word => "word"
  | .Markdown => "markdown"
  | .Slack => "slack"

/-- Command-line options, from `struct Opt` in src/main.rs. -/
structure Opt where
  input_audio_file : String
  output_type : Option OutputType
  output_filename : Option String
  language_code : String
  delete_s3_object : String

/-- Configuration values read from config.toml; a missing key defaults to
the empty string (`unwrap_or_default`). -/
structure Config where
  s3_bucket_name : String
  slack_webhook_endpoint : String

/-- Split a character list on a separator character, keeping empty
segments (the behaviour of splitting a path or filename on a separator). -/
def splitListOn (sep : Char) : List Char → List (List Char)
  | [] => [[]]
  | c :: cs =>
    match splitListOn sep cs with
    | [] => [[]]
    | h :: t => if c = sep then [] :: h :: t else (c :: h) :: t

/-- Model of Rust `Path::file_name` for ordinary relative/absolute unix
paths: the last path component, skipping empty and `.` components; a
trailing `..` component yields `None`. -/
def rustFileName (p : String) : Option String :=
  match ((splitListOn '/' p.data).filter (fun c => !(c.isEmpty || c == ['.']))).getLast? with
  | none => none
  | some c => if c = ['.', '.'] then none else some (String.mk c)

/-- Model of Rust `Path::extension`: the portion of the file name after
its last `.`, unless the file name has no `.` or starts with its only
`.` (hidden-file rule). -/
def rustExtension (filename : String) : Option String :=
  match rustFileName filename with
  | none => none
  | some f =>
    match splitListOn '.' f.data with
    | [] => none
    | [_] => none
    | p0 :: ps => if p0 = [] ∧ ps.length = 1 then none else (ps.getLast?).map String.mk

/-- ASCII-faithful model of Rust `str::to_lowercase`. -/
def strToLower (s : String) : String := String.mk (s.data.map Char.toLower)

/-- Model of Rust `str::trim` on a character list. -/
def trimList (l : List Char) : List Char :=
  ((l.dropWhile Char.isWhitespace).reverse.dropWhile Char.isWhitespace).reverse

/-- Model of Rust `str::trim`. -/
def rustTrim (s : String) : String := String.mk (trimList s.data)

/-- Strip one trailing carriage return, as Rust `str::lines` does. -/
def stripCR (l : List Char) : List Char :=
  match l.reverse with
  | c :: r => if c = crChar then r.reverse else l
  | [] => l

/-- Model of Rust `str::lines`: split on the newline character, drop the
final empty segment produced by a trailing newline, strip a trailing
carriage return from each line. -/
def rustLines (s : String) : List String :=
  let parts := splitListOn nlChar s.data
  let parts :=
    match parts.reverse with
    | [] :: rest => rest.reverse
    | _ => parts
  parts.map (fun l => String.mk (stripCR l))

/-- Does the pattern (first argument) start the list (second argument)? -/
def listStartsWith : List Char → List Char → Bool
  | [], _ => true
  | _ :: _, [] => false
  | p :: ps, c :: cs => p == c && listStartsWith ps cs

/-- Substring search on character lists (model of Rust `str::contains`). -/
def listContainsSub : List Char → List Char → Bool
  | [], pat => pat.isEmpty
  | c :: cs, pat => listStartsWith pat (c :: cs) || listContainsSub cs pat

/-- Model of Rust `str::contains` for string literals. -/
def strContainsSub (s pat : String) : Bool := listContainsSub s.data pat.data

/-- `OutputType::from_filename` (src/main.rs lines 72-84): infer the
output type from the lowercased filename extension. -/
def OutputType.from_filename (filename : String) : Option OutputType :=
  match (rustExtension filename).map strToLower with
  | some e =>
    if e = "md" then some OutputType.Markdown
    else if e = "txt" then some OutputType.Text
    else if e = "doc" ∨ e = "docx" then some OutputType.Word
    else none
  | none => none

/-- Warning printed when no output type can be inferred from a filename. -/
def noInferWarning (filename : String) : String :=
  "Warning: Could not infer output type from filename " ++ filename ++ ", defaulting to text"

/-- Warning printed when the filename extension disagrees with the
explicitly requested output type. -/
def mismatchWarning (inferred explicit_type : OutputType) : String :=
  "Warning: Output filename extension suggests " ++ inferred.display ++
    " output type, but " ++ explicit_type.display ++ " was explicitly specified"

/-- The output-type inference and validation block of `main`
(src/main.rs lines 109-135).  Returns the resolved output type together
with the list of warnings printed, or the fatal error raised by `bail!`. -/
def resolveOutputType (output_filename : Option String) (output_type : Option OutputType) :
    Except String (OutputType × List String) :=
  match output_filename, output_type with
  | some filename, none =>
    match OutputType.from_filename filename with
    | some t => .ok (t, [])
    | none => .ok (OutputType.Text, [noInferWarning filename])
  | some filename, some explicit_type =>
    match explicit_type with
    | OutputType.Terminal => .error "Output filename cannot be used with terminal output type"
    | OutputType.Slack => .error "Output filename cannot be used with Slack output type"
    | _ =>
      match OutputType.from_filename filename with
      | some inferred =>
        if inferred ≠ explicit_type then .ok (explicit_type, [mismatchWarning inferred explicit_type])
        else .ok (explicit_type, [])
      | none => .ok (explicit_type, [])
  | none, some t => .ok (t, [])
  | none, none => .ok (OutputType.Terminal, [])

/-- Header test for the summary section (src/main.rs lines 412-413). -/
def isSummaryHeader (line : String) : Bool :=
  strContainsSub (strToLower line) "key points" || strContainsSub (strToLower line) "summary"

/-- Header test for the action-items section (src/main.rs lines 416-417). -/
def isActionHeader (line : String) : Bool :=
  strContainsSub (strToLower line) "action item" || strContainsSub (strToLower line) "next step"

/-- A line is kept (copied into some buffer) iff it is not a section
header and not blank. -/
def keepLine (line : String) : Bool :=
  !(isSummaryHeader line) && !(isActionHeader line) && !(rustTrim line == "")

/-- The per-line loop of `parse_summary_sections` (src/main.rs lines
410-430), over the list of input lines, carrying the current-section
marker string (initially empty).  Returns the lines accumulated into the
summary, action-items and rest buffers, in order. -/
def classifyLines : String → List String → List String × List String × List String
  | _, [] => ([], [], [])
  | cur, line :: rest =>
    if isSummaryHeader line then classifyLines "summary" rest
    else if isActionHeader line then classifyLines "action" rest
    else if rustTrim line = "" then classifyLines cur rest
    else
      let r := classifyLines cur rest
      if cur = "summary" then (line :: r.1, r.2.1, r.2.2)
      else if cur = "action" then (r.1, line :: r.2.1, r.2.2)
      else (r.1, r.2.1, line :: r.2.2)

/-- Buffer accumulation: each kept line is pushed followed by a newline
(`push_str(&format!("{}\n", line))`). -/
def joinLinesNl (ls : List String) : String :=
  ls.foldl (fun acc l => acc ++ l ++ "\n") ""

/-- `parse_summary_sections` (src/main.rs lines 400-438): classify each
line of the summary into three buffers and trim each buffer. -/
def parse_summary_sections (summarized_text : String) : String × String × String :=
  let r := classifyLines "" (rustLines summarized_text)
  (rustTrim (joinLinesNl r.1), rustTrim (joinLinesNl r.2.1), rustTrim (joinLinesNl r.2.2))

/-- `bucket_region` (src/main.rs lines 452-468), as a function of the
storage-location collaborator's response: `Err` propagates, a missing
location constraint is an error, the empty constraint maps to the
default region us-east-1, and any other constraint is used verbatim. -/
def bucket_region : Except String (Option String) → Except String String
  | .error e => .error e
  | .ok none => .error "Bucket has no location_constraint"
  | .ok (some lc) => if lc = "" then .ok "us-east-1" else .ok lc

/-- Which S3 client issues a storage call: the client built for bucket
discovery (`s3_client`) or the region-scoped client built after the
bucket's region is resolved (`regional_s3_client`). -/
inductive ClientId where
  | discovery
  | regional
deriving DecidableEq, Repr

/-- Observable events of a job run: collaborator calls and printed lines. -/
inductive Event where
  | listBucketsCall : Event
  | promptCall : Event
  | locateCall : Event
  | uploadCall : ClientId → Event
  | transcribeCall : Event
  | summarizeCall : Event
  | postCall : Event
  | deleteCall : ClientId → Event
  | rendered : Event
  | fileWrite : String → String → Event
  | print : String → Event
deriving DecidableEq, Repr

/-- The collaborator environment: results of the external calls `main`
makes, as functions of their arguments. -/
structure Env where
  listBuckets : Except String (List String)
  promptSelect : List String → Except String Nat
  getBucketLocation : String → Except String (Option String)
  tilde : String → String
  pathExists : String → Bool
  canonicalize : String → Except String String
  loadBody : String → Except String Unit
  putObject : String → String → Except String Unit
  transcribe : Except String String
  summarize : Except String String
  writeFile : String → String → Except String Unit
  slackPost : String → String × String × String × String → Except String Bool
  deleteObject : String → String → Except String Unit

/-- The interactive-selection fallback of the bucket-resolution block
(src/main.rs lines 162-182): prompt once over the full candidate list,
reject an empty selected name. -/
def promptPath (bucket_names : List String) (env : Env) (ev : List Event) :
    Except String String × List Event :=
  match env.promptSelect bucket_names with
  | .error e => (.error e, ev ++ [Event.promptCall])
  | .ok selection =>
    match bucket_names.get? selection with
    | none => (.error "panic: index out of bounds", ev ++ [Event.promptCall])
    | some b =>
      if b = "" then
        (.error "No valid S3 bucket found. Please check your AWS configuration.",
         ev ++ [Event.promptCall])
      else (.ok b, ev ++ [Event.promptCall])

/-- The bucket-resolution block of `main` (src/main.rs lines 139-182):
list the buckets once; if the configured name is non-empty and present
in the listing, use it without prompting; otherwise fall back to the
interactive prompt (or fail when the listing call failed). -/
def resolveBucketT (s3_bucket_name : String) (env : Env) :
    Except String String × List Event :=
  match env.listBuckets with
  | .error err =>
    if s3_bucket_name = "" then
      (.error ("Error getting bucket list: " ++ err),
       [Event.listBucketsCall, Event.print ("Error getting bucket list: " ++ err)])
    else
      (.error ("Error getting bucket list: " ++ err),
       [Event.listBucketsCall,
        Event.print ("Error: The configured S3 bucket " ++ s3_bucket_name ++ " was not found."),
        Event.print ("Error getting bucket list: " ++ err)])
  | .ok bucket_names =>
    if s3_bucket_name = "" then
      promptPath bucket_names env [Event.listBucketsCall]
    else if s3_bucket_name ∈ bucket_names then
      (.ok s3_bucket_name,
       [Event.listBucketsCall, Event.print ("S3 bucket name: " ++ s3_bucket_name)])
    else
      promptPath bucket_names env
        [Event.listBucketsCall,
         Event.print ("Error: The configured S3 bucket " ++ s3_bucket_name ++ " was not found.")]

/-- Text content of the Word document (src/main.rs lines 255-259):
the concatenated paragraph texts. -/
def wordContent (summarized_text transcription : String) : String :=
  summarized_text ++ "\n\n" ++ "Transcription:\n" ++ transcription

/-- Content written by the Text sink (src/main.rs lines 280-285). -/
def textContent (summarized_text transcription : String) : String :=
  summarized_text ++ "\n\nTranscription:\n" ++ transcription

/-- Model of `transcription_md.replace("spk_", "\nspk_")`: left-to-right
non-overlapping replacement inserting a newline before each speaker tag. -/
def replaceSpk : List Char → List Char
  | 's' :: 'p' :: 'k' :: '_' :: rest =>
    nlChar :: 's' :: 'p' :: 'k' :: '_' :: replaceSpk rest
  | c :: cs => c :: replaceSpk cs
  | [] => []

/-- Content written by the Markdown sink (src/main.rs lines 307-310). -/
def markdownContent (summarized_text transcription : String) : String :=
  ("# Summary\n\n" ++ summarized_text) ++
    String.mk (replaceSpk ("\n\n# Transcription\n\n" ++ transcription).data)

/-- Text printed by the Terminal sink (src/main.rs lines 296-297). -/
def terminalText (summarized_text transcription : String) : String :=
  "Summary:\n" ++ summarized_text ++ "\n" ++ "Transcription:\n" ++ transcription ++ "\n"

/-- Content emitted by each sink, as a function of the summary and the
transcription; the Slack sink writes no summary-plus-transcription
document, so it yields `none`. -/
def renderedContent : OutputType → String → String → Option String
  | OutputType.Word, s, tr => some (wordContent s tr)
  | OutputType.Text, s, tr => some (textContent s tr)
  | OutputType.Markdown, s, tr => some (markdownContent s tr)
  | OutputType.Terminal, s, tr => some (terminalText s tr)
  | OutputType.Slack, _, _ => none

/-- Warning printed when the Slack sink is selected without a configured
webhook endpoint (src/main.rs lines 329-332). -/
def slackSkipMsg : String :=
  "Slack webhook endpoint is not configured. Skipping Slack notification."

/-- The line printed locally for the summary, `println!("Summary:\n{}\n", s)`. -/
def summaryPrintLine (summarized_text : String) : String :=
  "Summary:\n" ++ summarized_text ++ "\n"

/-- The rendering `match actual_output_type` block of `main`
(src/main.rs lines 245-365).  File sinks write their content (fatally on
failure); the Terminal sink prints; the Slack sink degrades to a local
print when no endpoint is configured, and reports but does not abort on
a failed or non-success post. -/
def fileSink (wr : Except String Unit) (errPre filename content : String) :
    Except String Unit × List Event :=
  match wr with
  | .error e => (.error (errPre ++ e), [])
  | .ok _ =>
    (.ok (), [Event.fileWrite filename content,
              Event.print ("Summary and transcription written to " ++ filename)])

/-- Outcome of the Slack post (src/main.rs lines 343-362): a success
status reports success, a non-success status or a transport error is
reported but does not abort the job. -/
def slackSink (post : Except String Bool) : Except String Unit × List Event :=
  match post with
  | .ok true => (.ok (), [Event.postCall, Event.print "Summary sent to Slack!"])
  | .ok false => (.ok (), [Event.postCall, Event.print "Failed to send summary to Slack!"])
  | .error _ => (.ok (), [Event.postCall, Event.print "Failed to send summary to Slack!"])

def renderStage (cfg : Config) (env : Env) (t : OutputType)
    (output_filename : Option String) (input_audio_file summarized_text transcription : String) :
    Except String Unit × List Event :=
  match t with
  | OutputType.Word =>
    fileSink (env.writeFile (output_filename.getD "summary.docx")
        (wordContent summarized_text transcription))
      "Error writing Word document: " (output_filename.getD "summary.docx")
      (wordContent summarized_text transcription)
  | OutputType.Text =>
    fileSink (env.writeFile (output_filename.getD "summary.txt")
        (textContent summarized_text transcription))
      "Error creating file: " (output_filename.getD "summary.txt")
      (textContent summarized_text transcription)
  | OutputType.Terminal =>
    (.ok (), [Event.print (summaryPrintLine summarized_text),
              Event.print ("Transcription:\n" ++ transcription ++ "\n")])
  | OutputType.Markdown =>
    fileSink (env.writeFile (output_filename.getD "summary.md")
        (markdownContent summarized_text transcription))
      "Error writing Markdown file: " (output_filename.getD "summary.md")
      (markdownContent summarized_text transcription)
  | OutputType.Slack =>
    if cfg.slack_webhook_endpoint = "" then
      (.ok (), [Event.print slackSkipMsg, Event.print (summaryPrintLine summarized_text)])
    else
      slackSink (env.slackPost cfg.slack_webhook_endpoint
        (input_audio_file, (parse_summary_sections summarized_text).1,
         (parse_summary_sections summarized_text).2.1,
         (parse_summary_sections summarized_text).2.2))

/-- The end-to-end `main` (src/main.rs lines 88-378), as a function of
the configuration, the parsed options and the collaborator environment.
Returns the job result and the ordered trace of events.  Stage order
follows the source exactly: output-type resolution, bucket listing and
selection, bucket-region lookup (building the region-scoped client),
file-name extraction, tilde expansion, existence check, canonicalize,
body load, upload (with the regional client), transcription,
summarization, rendering, and finally the conditional delete (issued
with the discovery client, and only when the flag equals "Y"). -/
def runMain (cfg : Config) (opt : Opt) (env : Env) :
    Except String Unit × List Event :=
  match resolveOutputType opt.output_filename opt.output_type with
  | .error e => (.error e, [])
  | .ok res =>
    match resolveBucketT cfg.s3_bucket_name env with
    | (.error e, tr1) => (.error e, res.2.map Event.print ++ tr1)
    | (.ok bucket_name, tr1) =>
      match bucket_region (env.getBucketLocation bucket_name) with
      | .error e => (.error e, res.2.map Event.print ++ tr1 ++ [Event.locateCall])
      | .ok _region =>
        match rustFileName opt.input_audio_file with
        | none =>
          (.error "panic: called unwrap on a None value",
           res.2.map Event.print ++ tr1 ++ [Event.locateCall])
        | some file_name =>
          if env.pathExists (env.tilde opt.input_audio_file) then
            match env.canonicalize (env.tilde opt.input_audio_file) with
            | .error e => (.error e, res.2.map Event.print ++ tr1 ++ [Event.locateCall])
            | .ok canonicalized_path =>
              match env.loadBody canonicalized_path with
              | .error _ =>
                (.error ("Error loading file: " ++ canonicalized_path),
                 res.2.map Event.print ++ tr1 ++ [Event.locateCall])
              | .ok _ =>
                match env.putObject bucket_name file_name with
                | .error _ =>
                  (.error "Failed to upload to S3",
                   res.2.map Event.print ++ tr1 ++
                     [Event.locateCall, Event.uploadCall ClientId.regional])
                | .ok _ =>
                  match env.transcribe with
                  | .error e =>
                    (.error e,
                     res.2.map Event.print ++ tr1 ++
                       [Event.locateCall, Event.uploadCall ClientId.regional,
                        Event.transcribeCall])
                  | .ok transcription =>
                    match env.summarize with
                    | .error e =>
                      (.error e,
                       res.2.map Event.print ++ tr1 ++
                         [Event.locateCall, Event.uploadCall ClientId.regional,
                          Event.transcribeCall, Event.summarizeCall])
                    | .ok summarized_text =>
                      match renderStage cfg env res.1 opt.output_filename
                          opt.input_audio_file summarized_text transcription with
                      | (.error e, tr2) =>
                        (.error e,
                         res.2.map Event.print ++ tr1 ++
                           [Event.locateCall, Event.uploadCall ClientId.regional,
                            Event.transcribeCall, Event.summarizeCall] ++ tr2)
                      | (.ok _, tr2) =>
                        if opt.delete_s3_object = "Y" then
                          match env.deleteObject bucket_name file_name with
                          | .error e =>
                            (.error e,
                             res.2.map Event.print ++ tr1 ++
                               [Event.locateCall, Event.uploadCall ClientId.regional,
                                Event.transcribeCall, Event.summarizeCall] ++ tr2 ++
                               [Event.rendered, Event.deleteCall ClientId.discovery])
                          | .ok _ =>
                            (.ok (),
                             res.2.map Event.print ++ tr1 ++
                               [Event.locateCall, Event.uploadCall ClientId.regional,
                                Event.transcribeCall, Event.summarizeCall] ++ tr2 ++
                               [Event.rendered, Event.deleteCall ClientId.discovery])
                        else
                          (.ok (),
                           res.2.map Event.print ++ tr1 ++
                             [Event.locateCall, Event.uploadCall ClientId.regional,
                              Event.transcribeCall, Event.summarizeCall] ++ tr2 ++
                             [Event.rendered])
          else
            (.error ("The path " ++ env.tilde opt.input_audio_file ++ " does not exist."),
             res.2.map Event.print ++ tr1 ++ [Event.locateCall])

/-- Count the events satisfying a predicate in a trace. -/
def countE (p : Event → Bool) (tr : List Event) : Nat := (tr.filter p).length

/-- Upload events. -/
def Event.isUpload : Event → Bool
  | .uploadCall _ => true
  | _ => false

/-- Delete events. -/
def Event.isDelete : Event → Bool
  | .deleteCall _ => true
  | _ => false

/-- Slack-post events. -/
def Event.isPost : Event → Bool
  | .postCall => true
  | _ => false

/-- Transcription-call events. -/
def Event.isTranscribe : Event → Bool
  | .transcribeCall => true
  | _ => false

/-- Summarization-call events. -/
def Event.isSummarize : Event → Bool
  | .summarizeCall => true
  | _ => false

/-- Interactive-prompt events. -/
def Event.isPrompt : Event → Bool
  | .promptCall => true
  | _ => false

/-- Events that a bucket-resolution trace may contain. -/
def Event.lightweight : Event → Bool
  | .listBucketsCall => true
  | .promptCall => true
  | .print _ => true
  | _ => false

/-- Events that a render-stage trace may contain. -/
def Event.renderish : Event → Bool
  | .print _ => true
  | .fileWrite _ _ => true
  | .postCall => true
  | _ => false

/-- An all-success collaborator environment used for concrete runs. -/
def envOK : Env :=
  { listBuckets := .ok ["mybucket"]
    promptSelect := fun _ => .ok 0
    getBucketLocation := fun _ => .ok (some "eu-west-1")
    tilde := fun s => s
    pathExists := fun _ => true
    canonicalize := fun s => .ok s
    loadBody := fun _ => .ok ()
    putObject := fun _ _ => .ok ()
    transcribe := .ok "T"
    summarize := .ok "S"
    writeFile := fun _ _ => .ok ()
    slackPost := fun _ _ => .ok true
    deleteObject := fun _ _ => .ok () }

/-- The all-success environment with a non-existent input path. -/
def envNoPath : Env := { envOK with pathExists := fun _ => false }

/-- Configuration with a configured bucket and no Slack endpoint. -/
def cfgOK : Config := { s3_bucket_name := "mybucket", slack_webhook_endpoint := "" }

/-- Baseline options: terminal output, delete flag at its default "n". -/
def optBase : Opt :=
  { input_audio_file := "audio.mp3"
    output_type := some OutputType.Terminal
    output_filename := none
    language_code := "en-US"
    delete_s3_object := "n" }

/-- Options with the delete flag set to the documented affirmative "y". -/
def optLowerY : Opt := { optBase with delete_s3_object := "y" }

/-- Options with the delete flag set to the uppercase "Y". -/
def optUpperY : Opt := { optBase with delete_s3_object := "Y" }

/-- Options selecting the Slack sink with no output filename. -/
def optSlackReq : Opt := { optBase with output_type := some OutputType.Slack }

/-- Options combining an output filename with the terminal output type. -/
def optConflict : Opt :=
  { optBase with output_filename := some "out.txt", output_type := some OutputType.Terminal }

/-- For claim C4: an upload event must carry the regional client and a
delete event the discovery client. -/
def eventClientOK : Event → Bool
  | .uploadCall ClientId.discovery => false
  | .deleteCall ClientId.regional => false
  | _ => true

theorem countE_nil (p : Event → Bool) : countE p [] = 0 := rfl

theorem countE_append (p : Event → Bool) (l1 l2 : List Event) :
    countE p (l1 ++ l2) = countE p l1 + countE p l2 := by
  simp [countE, List.filter_append]

theorem countE_cons (p : Event → Bool) (e : Event) (l : List Event) :
    countE p (e :: l) = (if p e = true then 1 else 0) + countE p l := by
  by_cases h : p e = true
  · simp [countE, List.filter_cons, h, Nat.add_comm]
  · simp [countE, List.filter_cons, h]

theorem countE_zero {p q : Event → Bool} (himp : ∀ e, q e = true → p e = false) :
    ∀ l : List Event, l.all q = true → countE p l = 0 := by
  intro l
  induction l with
  | nil => intro _; rfl
  | cons e rest ih =>
    intro hl
    rw [List.all_cons, Bool.and_eq_true] at hl
    have h : countE p (e :: rest) = countE p rest := by
      simp [countE, List.filter_cons, himp e hl.1]
    rw [h]
    exact ih hl.2

theorem not_mem_of_all {q : Event → Bool} {x : Event} (l : List Event)
    (hl : l.all q = true) (hx : q x = false) : x ∉ l := by
  intro hmem
  have h := List.all_eq_true.mp hl x hmem
  rw [hx] at h
  exact Bool.false_ne_true h

theorem allImp {p q : Event → Bool} (h : ∀ e, p e = true → q e = true) :
    ∀ l : List Event, l.all p = true → l.all q = true := by
  intro l hl
  rw [List.all_eq_true] at hl ⊢
  exact fun e he => h e (hl e he)

theorem light_no_delete : ∀ e, Event.lightweight e = true → Event.isDelete e = false := by
  intro e h; cases e <;> simp_all [Event.lightweight, Event.isDelete]

theorem light_no_upload : ∀ e, Event.lightweight e = true → Event.isUpload e = false := by
  intro e h; cases e <;> simp_all [Event.lightweight, Event.isUpload]

theorem light_no_transcribe : ∀ e, Event.lightweight e = true → Event.isTranscribe e = false := by
  intro e h; cases e <;> simp_all [Event.lightweight, Event.isTranscribe]

theorem light_no_summarize : ∀ e, Event.lightweight e = true → Event.isSummarize e = false := by
  intro e h; cases e <;> simp_all [Event.lightweight, Event.isSummarize]

theorem light_no_post : ∀ e, Event.lightweight e = true → Event.isPost e = false := by
  intro e h; cases e <;> simp_all [Event.lightweight, Event.isPost]

theorem light_clientOK : ∀ e, Event.lightweight e = true → eventClientOK e = true := by
  intro e h; cases e <;> simp_all [Event.lightweight, eventClientOK]

theorem render_no_delete : ∀ e, Event.renderish e = true → Event.isDelete e = false := by
  intro e h; cases e <;> simp_all [Event.renderish, Event.isDelete]

theorem render_no_upload : ∀ e, Event.renderish e = true → Event.isUpload e = false := by
  intro e h; cases e <;> simp_all [Event.renderish, Event.isUpload]

theorem render_no_transcribe : ∀ e, Event.renderish e = true → Event.isTranscribe e = false := by
  intro e h; cases e <;> simp_all [Event.renderish, Event.isTranscribe]

theorem render_no_summarize : ∀ e, Event.renderish e = true → Event.isSummarize e = false := by
  intro e h; cases e <;> simp_all [Event.renderish, Event.isSummarize]

theorem render_clientOK : ∀ e, Event.renderish e = true → eventClientOK e = true := by
  intro e h; cases e <;> simp_all [Event.renderish, eventClientOK]

theorem mapPrint_light (l : List String) :
    ((l.map Event.print).all Event.lightweight) = true := by
  rw [List.all_eq_true]
  intro e he
  rw [List.mem_map] at he
  obtain ⟨s, _, rfl⟩ := he
  rfl

theorem promptPath_trace (bn : List String) (env : Env) (ev : List Event) :
    (promptPath bn env ev).2 = ev ++ [Event.promptCall] := by
  unfold promptPath
  repeat' split
  all_goals rfl

theorem resolveBucketT_light (n : String) (env : Env) :
    ((resolveBucketT n env).2).all Event.lightweight = true := by
  unfold resolveBucketT
  repeat' split
  all_goals
    simp [promptPath_trace, Event.lightweight, List.all_append, List.all_cons, List.all_nil]

theorem fileSink_render (wr : Except String Unit) (a b c : String) :
    ((fileSink wr a b c).2).all Event.renderish = true := by
  cases wr <;> simp [fileSink, Event.renderish]

theorem slackSink_render (post : Except String Bool) :
    ((slackSink post).2).all Event.renderish = true := by
  rcases post with e | b
  · simp [slackSink, Event.renderish]
  · cases b <;> simp [slackSink, Event.renderish]

theorem renderStage_render (cfg : Config) (env : Env) (t : OutputType)
    (ofn : Option String) (inp s tr : String) :
    ((renderStage cfg env t ofn inp s tr).2).all Event.renderish = true := by
  cases t with
  | Terminal => simp [renderStage, Event.renderish]
  | Text => exact fileSink_render _ _ _ _
  | Word => exact fileSink_render _ _ _ _
  | Markdown => exact fileSink_render _ _ _ _
  | Slack =>
    simp only [renderStage]
    split
    · simp [Event.renderish]
    · exact slackSink_render _

theorem runMain_master (cfg : Config) (opt : Opt) (env : Env) :
    (countE Event.isDelete (runMain cfg opt env).2 =
        if opt.delete_s3_object = "Y" ∧ Event.rendered ∈ (runMain cfg opt env).2 then 1 else 0)
    ∧ ((runMain cfg opt env).2.all eventClientOK = true)
    ∧ (env.pathExists (env.tilde opt.input_audio_file) = false →
        (∃ m, (runMain cfg opt env).1 = Except.error m) ∧
          countE Event.isUpload (runMain cfg opt env).2 = 0 ∧
          countE Event.isTranscribe (runMain cfg opt env).2 = 0 ∧
          countE Event.isSummarize (runMain cfg opt env).2 = 0 ∧
          countE Event.isPost (runMain cfg opt env).2 = 0 ∧
          countE Event.isDelete (runMain cfg opt env).2 = 0)
    ∧ (∀ m, (resolveBucketT cfg.s3_bucket_name env).1 = Except.error m →
        countE Event.isUpload (runMain cfg opt env).2 = 0) := by
  rcases hOT : resolveOutputType opt.output_filename opt.output_type with e0 | res
  · simp [runMain, hOT, countE_nil]
  · have hA := mapPrint_light res.2
    have aD := countE_zero light_no_delete _ hA
    have aU := countE_zero light_no_upload _ hA
    have aT := countE_zero light_no_transcribe _ hA
    have aS := countE_zero light_no_summarize _ hA
    have aP := countE_zero light_no_post _ hA
    have aR : Event.rendered ∉ res.2.map Event.print := not_mem_of_all _ hA rfl
    have aC := allImp light_clientOK _ hA
    rcases hB : resolveBucketT cfg.s3_bucket_name env with ⟨bres, tr1⟩
    have htr1 : tr1.all Event.lightweight = true := by
      have h := resolveBucketT_light cfg.s3_bucket_name env
      rw [hB] at h
      exact h
    have bD := countE_zero light_no_delete _ htr1
    have bU := countE_zero light_no_upload _ htr1
    have bT := countE_zero light_no_transcribe _ htr1
    have bS := countE_zero light_no_summarize _ htr1
    have bP := countE_zero light_no_post _ htr1
    have bR : Event.rendered ∉ tr1 := not_mem_of_all _ htr1 rfl
    have bC := allImp light_clientOK _ htr1
    rcases bres with be | bucket_name
    · simp [runMain, hOT, hB, countE_append, countE_cons, countE_nil, aD, aU, aT, aS, aP, aR, aC, bD, bU, bT, bS, bP, bR, bC, List.all_append, List.all_cons, List.all_nil, List.mem_append, List.mem_cons, List.not_mem_nil, Event.isDelete, Event.isUpload, Event.isTranscribe, Event.isSummarize, Event.isPost, eventClientOK]
    · rcases hR : bucket_region (env.getBucketLocation bucket_name) with re | region
      · simp [runMain, hOT, hB, hR, countE_append, countE_cons, countE_nil, aD, aU, aT, aS, aP, aR, aC, bD, bU, bT, bS, bP, bR, bC, List.all_append, List.all_cons, List.all_nil, List.mem_append, List.mem_cons, List.not_mem_nil, Event.isDelete, Event.isUpload, Event.isTranscribe, Event.isSummarize, Event.isPost, eventClientOK]
      · rcases hF : rustFileName opt.input_audio_file with _ | file_name
        · simp [runMain, hOT, hB, hR, hF, countE_append, countE_cons, countE_nil, aD, aU, aT, aS, aP, aR, aC, bD, bU, bT, bS, bP, bR, bC, List.all_append, List.all_cons, List.all_nil, List.mem_append, List.mem_cons, List.not_mem_nil, Event.isDelete, Event.isUpload, Event.isTranscribe, Event.isSummarize, Event.isPost, eventClientOK]
        · rcases hP : env.pathExists (env.tilde opt.input_audio_file) with _ | _
          · simp [runMain, hOT, hB, hR, hF, hP, countE_append, countE_cons, countE_nil, aD, aU, aT, aS, aP, aR, aC, bD, bU, bT, bS, bP, bR, bC, List.all_append, List.all_cons, List.all_nil, List.mem_append, List.mem_cons, List.not_mem_nil, Event.isDelete, Event.isUpload, Event.isTranscribe, Event.isSummarize, Event.isPost, eventClientOK]
          · rcases hC : env.canonicalize (env.tilde opt.input_audio_file) with ce | cp
            · simp [runMain, hOT, hB, hR, hF, hP, hC, countE_append, countE_cons, countE_nil, aD, aU, aT, aS, aP, aR, aC, bD, bU, bT, bS, bP, bR, bC, List.all_append, List.all_cons, List.all_nil, List.mem_append, List.mem_cons, List.not_mem_nil, Event.isDelete, Event.isUpload, Event.isTranscribe, Event.isSummarize, Event.isPost, eventClientOK]
            · rcases hL : env.loadBody cp with le | lu
              · simp [runMain, hOT, hB, hR, hF, hP, hC, hL, countE_append, countE_cons, countE_nil, aD, aU, aT, aS, aP, aR, aC, bD, bU, bT, bS, bP, bR, bC, List.all_append, List.all_cons, List.all_nil, List.mem_append, List.mem_cons, List.not_mem_nil, Event.isDelete, Event.isUpload, Event.isTranscribe, Event.isSummarize, Event.isPost, eventClientOK]
              · rcases hU : env.putObject bucket_name file_name with ue | uu
                · simp [runMain, hOT, hB, hR, hF, hP, hC, hL, hU, countE_append, countE_cons, countE_nil, aD, aU, aT, aS, aP, aR, aC, bD, bU, bT, bS, bP, bR, bC, List.all_append, List.all_cons, List.all_nil, List.mem_append, List.mem_cons, List.not_mem_nil, Event.isDelete, Event.isUpload, Event.isTranscribe, Event.isSummarize, Event.isPost, eventClientOK]
                · rcases hT : env.transcribe with te | tstr
                  · simp [runMain, hOT, hB, hR, hF, hP, hC, hL, hU, hT, countE_append, countE_cons, countE_nil, aD, aU, aT, aS, aP, aR, aC, bD, bU, bT, bS, bP, bR, bC, List.all_append, List.all_cons, List.all_nil, List.mem_append, List.mem_cons, List.not_mem_nil, Event.isDelete, Event.isUpload, Event.isTranscribe, Event.isSummarize, Event.isPost, eventClientOK]
                  · rcases hS : env.summarize with se | sstr
                    · simp [runMain, hOT, hB, hR, hF, hP, hC, hL, hU, hT, hS, countE_append, countE_cons, countE_nil, aD, aU, aT, aS, aP, aR, aC, bD, bU, bT, bS, bP, bR, bC, List.all_append, List.all_cons, List.all_nil, List.mem_append, List.mem_cons, List.not_mem_nil, Event.isDelete, Event.isUpload, Event.isTranscribe, Event.isSummarize, Event.isPost, eventClientOK]
                    · rcases hRS : renderStage cfg env res.1 opt.output_filename
                          opt.input_audio_file sstr tstr with ⟨rres, tr2⟩
                      have htr2 : tr2.all Event.renderish = true := by
                        have h := renderStage_render cfg env res.1 opt.output_filename
                          opt.input_audio_file sstr tstr
                        rw [hRS] at h
                        exact h
                      have cD := countE_zero render_no_delete _ htr2
                      have cU := countE_zero render_no_upload _ htr2
                      have cT := countE_zero render_no_transcribe _ htr2
                      have cS := countE_zero render_no_summarize _ htr2
                      have cR : Event.rendered ∉ tr2 := not_mem_of_all _ htr2 rfl
                      have cC := allImp render_clientOK _ htr2
                      rcases rres with rerr | runit
                      · simp [runMain, hOT, hB, hR, hF, hP, hC, hL, hU, hT, hS, hRS,
                          cD, cU, cT, cS, cR, cC, countE_append, countE_cons, countE_nil, aD, aU, aT, aS, aP, aR, aC, bD, bU, bT, bS, bP, bR, bC, List.all_append, List.all_cons, List.all_nil, List.mem_append, List.mem_cons, List.not_mem_nil, Event.isDelete, Event.isUpload, Event.isTranscribe, Event.isSummarize, Event.isPost, eventClientOK]
                      · by_cases hY : opt.delete_s3_object = "Y"
                        · rcases hDel : env.deleteObject bucket_name file_name with de | du
                          · simp [runMain, hOT, hB, hR, hF, hP, hC, hL, hU, hT, hS, hRS,
                              cD, cU, cT, cS, cR, cC, hY, hDel, countE_append, countE_cons, countE_nil, aD, aU, aT, aS, aP, aR, aC, bD, bU, bT, bS, bP, bR, bC, List.all_append, List.all_cons, List.all_nil, List.mem_append, List.mem_cons, List.not_mem_nil, Event.isDelete, Event.isUpload, Event.isTranscribe, Event.isSummarize, Event.isPost, eventClientOK]
                          · simp [runMain, hOT, hB, hR, hF, hP, hC, hL, hU, hT, hS, hRS,
                              cD, cU, cT, cS, cR, cC, hY, hDel, countE_append, countE_cons, countE_nil, aD, aU, aT, aS, aP, aR, aC, bD, bU, bT, bS, bP, bR, bC, List.all_append, List.all_cons, List.all_nil, List.mem_append, List.mem_cons, List.not_mem_nil, Event.isDelete, Event.isUpload, Event.isTranscribe, Event.isSummarize, Event.isPost, eventClientOK]
                        · simp [runMain, hOT, hB, hR, hF, hP, hC, hL, hU, hT, hS, hRS,
                            cD, cU, cT, cS, cR, cC, hY, countE_append, countE_cons, countE_nil, aD, aU, aT, aS, aP, aR, aC, bD, bU, bT, bS, bP, bR, bC, List.all_append, List.all_cons, List.all_nil, List.mem_append, List.mem_cons, List.not_mem_nil, Event.isDelete, Event.isUpload, Event.isTranscribe, Event.isSummarize, Event.isPost, eventClientOK]


theorem promptPath_count (bn : List String) (env : Env) (ev : List Event) :
    countE Event.isPrompt (promptPath bn env ev).2 = countE Event.isPrompt ev + 1 := by
  rw [promptPath_trace, countE_append]
  simp [countE_cons, countE_nil, Event.isPrompt]

theorem promptPath_ok_ne (bn : List String) (env : Env) (ev : List Event) (b : String) :
    (promptPath bn env ev).1 = .ok b → b ≠ "" := by
  unfold promptPath
  repeat' split
  all_goals intro h
  all_goals simp_all

theorem s_ne_nl : (('s' == nlChar) : Bool) = false := by decide

theorem p_ne_nl : (('p' == nlChar) : Bool) = false := by decide

theorem k_ne_nl : (('k' == nlChar) : Bool) = false := by decide

theorem us_ne_nl : (('_' == nlChar) : Bool) = false := by decide

theorem nl_eq_nl : ((nlChar == nlChar) : Bool) = true := by decide

theorem nl_str_filter : ("\n".data).filter (fun c => !(c == nlChar)) = [] := by decide

theorem replaceSpk_filter (l : List Char) :
    (replaceSpk l).filter (fun c => !(c == nlChar)) = l.filter (fun c => !(c == nlChar)) := by
  induction l using replaceSpk.induct <;>
    simp_all [replaceSpk, List.filter_cons, s_ne_nl, p_ne_nl, k_ne_nl, us_ne_nl, nl_eq_nl]

theorem replaceSpk_header (x : List Char) :
    replaceSpk ("\n\n# Transcription\n\n".data ++ x) =
      "\n\n# Transcription\n\n".data ++ replaceSpk x := rfl

theorem strData_append (a b : String) : (a ++ b).data = a.data ++ b.data := rfl

theorem classify_partition (lines : List String) : ∀ cur : String,
    ((classifyLines cur lines).1 ++ (classifyLines cur lines).2.1 ++
      (classifyLines cur lines).2.2).Perm (lines.filter keepLine) := by
  induction lines with
  | nil => intro cur; simp [classifyLines]
  | cons line rest ih =>
    intro cur
    by_cases h1 : isSummaryHeader line = true
    · have hk : keepLine line = false := by simp [keepLine, h1]
      simp only [classifyLines, h1, if_true, List.filter_cons, hk, Bool.false_eq_true, if_false]
      exact ih "summary"
    · by_cases h2 : isActionHeader line = true
      · have hk : keepLine line = false := by simp [keepLine, h2]
        simp only [classifyLines, h1, h2, if_true, Bool.false_eq_true, if_false,
          List.filter_cons, hk]
        exact ih "action"
      · by_cases h3 : rustTrim line = ""
        · have hk : keepLine line = false := by simp [keepLine, h3]
          simp only [classifyLines, h1, h2, h3, if_true, Bool.false_eq_true, if_false,
            List.filter_cons, hk]
          exact ih cur
        · have hk : keepLine line = true := by
            simp [keepLine, h1, h2, h3, Bool.not_eq_true]
          by_cases hc1 : cur = "summary"
          · subst hc1
            simp only [classifyLines, h1, h2, h3, if_true, Bool.false_eq_true, if_false,
              List.filter_cons, hk, List.cons_append, if_pos rfl]
            exact (ih "summary").cons line
          · by_cases hc2 : cur = "action"
            · subst hc2
              simp only [classifyLines, h1, h2, h3, if_true, Bool.false_eq_true,
                if_false, List.filter_cons, hk]
              exact (List.perm_middle.append_right _).trans ((ih "action").cons line)
            · simp only [classifyLines, h1, h2, h3, if_true, Bool.false_eq_true,
                if_false, List.filter_cons, hk, if_neg hc1, if_neg hc2]
              exact List.perm_middle.trans ((ih cur).cons line)

/-- C1 counterexample: with every collaborator succeeding but the input
path absent from disk, the job fails — yet the storage-listing and
bucket-location collaborators have already been invoked by then, so the
collaborator call-count is not zero. -/
theorem c1_counterexample :
    envNoPath.pathExists (envNoPath.tilde optBase.input_audio_file) = false ∧
    (runMain cfgOK optBase envNoPath).1 = Except.error "The path audio.mp3 does not exist." ∧
    Event.listBucketsCall ∈ (runMain cfgOK optBase envNoPath).2 ∧
    Event.locateCall ∈ (runMain cfgOK optBase envNoPath).2 := by
  refine ⟨rfl, rfl, ?_, ?_⟩ <;> decide

/-- C1 (amended): when the tilde-expanded input path does not exist the
job fails, and no upload, transcription, summarization, notification or
delete call is made; the storage-listing and bucket-location calls are
excluded from the guarantee because the source checks existence only
after resolving the bucket and its region. -/
theorem c1_missing_path_fails_before_upload (cfg : Config) (opt : Opt) (env : Env)
    (hpath : env.pathExists (env.tilde opt.input_audio_file) = false) :
    (∃ m, (runMain cfg opt env).1 = Except.error m) ∧
      countE Event.isUpload (runMain cfg opt env).2 = 0 ∧
      countE Event.isTranscribe (runMain cfg opt env).2 = 0 ∧
      countE Event.isSummarize (runMain cfg opt env).2 = 0 ∧
      countE Event.isPost (runMain cfg opt env).2 = 0 ∧
      countE Event.isDelete (runMain cfg opt env).2 = 0 :=
  (runMain_master cfg opt env).2.2.1 hpath

/-- Witness for C1's amended theorem at a concrete non-existent path. -/
theorem c1_missing_path_fails_before_upload_witness :
    envNoPath.pathExists (envNoPath.tilde optBase.input_audio_file) = false ∧
    ((∃ m, (runMain cfgOK optBase envNoPath).1 = Except.error m) ∧
      countE Event.isUpload (runMain cfgOK optBase envNoPath).2 = 0 ∧
      countE Event.isTranscribe (runMain cfgOK optBase envNoPath).2 = 0 ∧
      countE Event.isSummarize (runMain cfgOK optBase envNoPath).2 = 0 ∧
      countE Event.isPost (runMain cfgOK optBase envNoPath).2 = 0 ∧
      countE Event.isDelete (runMain cfgOK optBase envNoPath).2 = 0) :=
  ⟨rfl, c1_missing_path_fails_before_upload cfgOK optBase envNoPath rfl⟩

/-- C2: an output filename combined with an explicit Terminal or Slack
output type makes the job fail during output-type resolution, before any
collaborator is invoked: the event trace of the run is empty. -/
theorem c2_conflict_fails_before_any_call (cfg : Config) (opt : Opt) (env : Env)
    (f : String) (hf : opt.output_filename = some f)
    (ht : opt.output_type = some OutputType.Terminal ∨ opt.output_type = some OutputType.Slack) :
    (∃ m, (runMain cfg opt env).1 = Except.error m) ∧ (runMain cfg opt env).2 = [] := by
  rcases ht with ht | ht
  · simp [runMain, resolveOutputType, hf, ht]
  · simp [runMain, resolveOutputType, hf, ht]

/-- Witness for C2 at a concrete filename/Terminal conflict. -/
theorem c2_conflict_fails_before_any_call_witness :
    (∃ m, (runMain cfgOK optConflict envOK).1 = Except.error m) ∧
    (runMain cfgOK optConflict envOK).2 = [] :=
  c2_conflict_fails_before_any_call cfgOK optConflict envOK "out.txt" rfl (Or.inl rfl)

/-- C3 counterexample: a fully successful run with the delete flag set to
the documented affirmative value "y" renders successfully yet issues no
delete call, because the source compares the flag against the uppercase
"Y". -/
theorem c3_counterexample :
    optLowerY.delete_s3_object = "y" ∧
    (runMain cfgOK optLowerY envOK).1 = Except.ok () ∧
    Event.rendered ∈ (runMain cfgOK optLowerY envOK).2 ∧
    countE Event.isDelete (runMain cfgOK optLowerY envOK).2 = 0 := by
  refine ⟨rfl, rfl, ?_, ?_⟩ <;> decide

/-- C3 (amended): the cleanup delete is issued exactly when the delete
flag equals the uppercase string "Y" and the render stage has completed
(the `rendered` marker is in the trace); in particular the documented
lowercase "y", the default "n", and any failure before or during
rendering all yield zero delete calls. -/
theorem c3_delete_iff_flag_and_rendered (cfg : Config) (opt : Opt) (env : Env) :
    countE Event.isDelete (runMain cfg opt env).2 =
      if opt.delete_s3_object = "Y" ∧ Event.rendered ∈ (runMain cfg opt env).2 then 1 else 0 :=
  (runMain_master cfg opt env).1

/-- C4 counterexample: in a fully successful run with the delete flag
"Y", the cleanup delete is issued with the discovery client and not with
the region-scoped client, refuting the claim that every post-resolution
storage call uses the region-scoped client. -/
theorem c4_counterexample :
    Event.deleteCall ClientId.discovery ∈ (runMain cfgOK optUpperY envOK).2 ∧
    Event.deleteCall ClientId.regional ∉ (runMain cfgOK optUpperY envOK).2 := by
  refine ⟨?_, ?_⟩ <;> decide

/-- C4 (amended): every upload in a run's trace is issued with the
region-scoped client, but every cleanup delete is issued with the client
that was used for bucket discovery. -/
theorem c4_upload_regional_delete_discovery (cfg : Config) (opt : Opt) (env : Env)
    (c : ClientId) :
    (Event.uploadCall c ∈ (runMain cfg opt env).2 → c = ClientId.regional) ∧
    (Event.deleteCall c ∈ (runMain cfg opt env).2 → c = ClientId.discovery) := by
  have h := (runMain_master cfg opt env).2.1
  rw [List.all_eq_true] at h
  constructor
  · intro hm
    have hc := h _ hm
    cases c
    · simp [eventClientOK] at hc
    · rfl
  · intro hm
    have hc := h _ hm
    cases c
    · rfl
    · simp [eventClientOK] at hc

/-- Witness for C4's amended theorem at a concrete successful deleting run. -/
theorem c4_upload_regional_delete_discovery_witness :
    Event.deleteCall ClientId.discovery ∈ (runMain cfgOK optUpperY envOK).2 ∧
    ClientId.discovery = ClientId.discovery := by
  have hm : Event.deleteCall ClientId.discovery ∈ (runMain cfgOK optUpperY envOK).2 := by decide
  exact ⟨hm,
    (c4_upload_regional_delete_discovery cfgOK optUpperY envOK ClientId.discovery).2 hm⟩

/-- C5: with an output filename and no explicit type, the resolved type
follows the lowercased filename extension: md gives Markdown, txt gives
Text, doc and docx give Word; any other or missing extension resolves to
Text together with a non-fatal warning. -/
theorem c5_type_inferred_from_extension (f : String) :
    ((rustExtension f).map strToLower = some "md" →
        resolveOutputType (some f) none = .ok (OutputType.Markdown, [])) ∧
    ((rustExtension f).map strToLower = some "txt" →
        resolveOutputType (some f) none = .ok (OutputType.Text, [])) ∧
    (∀ e, (rustExtension f).map strToLower = some e → (e = "doc" ∨ e = "docx") →
        resolveOutputType (some f) none = .ok (OutputType.Word, [])) ∧
    ((∀ e, (rustExtension f).map strToLower = some e →
        e ≠ "md" ∧ e ≠ "txt" ∧ e ≠ "doc" ∧ e ≠ "docx") →
      resolveOutputType (some f) none = .ok (OutputType.Text, [noInferWarning f])) := by
  refine ⟨fun he => ?_, fun he => ?_, fun e he hde => ?_, fun hother => ?_⟩
  · simp [resolveOutputType, OutputType.from_filename, he]
  · simp [resolveOutputType, OutputType.from_filename, he]
  · rcases hde with h | h <;> subst h <;>
      simp [resolveOutputType, OutputType.from_filename, he]
  · rcases hext : (rustExtension f).map strToLower with _ | e
    · simp [resolveOutputType, OutputType.from_filename, hext]
    · have h := hother e hext
      simp [resolveOutputType, OutputType.from_filename, hext, h.1, h.2.1, h.2.2.1, h.2.2.2]

/-- Witness for C5 at a concrete uppercase Markdown filename. -/
theorem c5_type_inferred_from_extension_witness :
    (rustExtension "notes.MD").map strToLower = some "md" ∧
    resolveOutputType (some "notes.MD") none = .ok (OutputType.Markdown, []) := by
  have h : (rustExtension "notes.MD").map strToLower = some "md" := by decide
  exact ⟨h, (c5_type_inferred_from_extension "notes.MD").1 h⟩

/-- C6: destination resolution: a non-empty configured bucket name found
in a successful listing is used with no prompt; with a successful
listing and an empty or absent configured name the interactive choice is
invoked exactly once; a successfully resolved bucket name is never
empty; and when resolution fails no upload is ever attempted. -/
theorem c6_destination_resolution :
    (∀ (name : String) (env : Env) (l : List String),
        env.listBuckets = .ok l → name ≠ "" → name ∈ l →
        (resolveBucketT name env).1 = .ok name ∧
          countE Event.isPrompt (resolveBucketT name env).2 = 0) ∧
    (∀ (name : String) (env : Env) (l : List String),
        env.listBuckets = .ok l → (name = "" ∨ name ∉ l) →
        countE Event.isPrompt (resolveBucketT name env).2 = 1) ∧
    (∀ (name : String) (env : Env) (b : String),
        (resolveBucketT name env).1 = .ok b → b ≠ "") ∧
    (∀ (cfg : Config) (opt : Opt) (env : Env) (m : String),
        (resolveBucketT cfg.s3_bucket_name env).1 = Except.error m →
        countE Event.isUpload (runMain cfg opt env).2 = 0) := by
  refine ⟨?_, ?_, ?_, ?_⟩
  · intro name env l hl hne hmem
    simp [resolveBucketT, hl, hne, hmem, countE_cons, countE_nil, Event.isPrompt]
  · intro name env l hl hcond
    rcases hcond with rfl | habs
    · simp [resolveBucketT, hl, promptPath_count, countE_cons, countE_nil, Event.isPrompt]
    · by_cases hne : name = ""
      · subst hne
        simp [resolveBucketT, hl, promptPath_count, countE_cons, countE_nil, Event.isPrompt]
      · simp [resolveBucketT, hl, hne, habs, promptPath_count, countE_cons, countE_nil,
          Event.isPrompt]
  · intro name env b
    rcases hle : env.listBuckets with err | l
    · by_cases hne : name = "" <;> simp [resolveBucketT, hle, hne]
    · by_cases hne : name = ""
      · subst hne
        simp only [resolveBucketT, hle, if_true]
        exact promptPath_ok_ne l env _ b
      · by_cases hmem : name ∈ l
        · simp only [resolveBucketT, hle, hne, if_false, hmem, if_true]
          intro h
          simp only [Except.ok.injEq] at h
          subst h
          exact hne
        · simp only [resolveBucketT, hle, hne, if_false, hmem, if_true]
          exact promptPath_ok_ne l env _ b
  · intro cfg opt env m
    exact (runMain_master cfg opt env).2.2.2 m

/-- Witness for C6 at a concrete configured bucket present in the listing. -/
theorem c6_destination_resolution_witness :
    (resolveBucketT "mybucket" envOK).1 = .ok "mybucket" ∧
    countE Event.isPrompt (resolveBucketT "mybucket" envOK).2 = 0 :=
  c6_destination_resolution.1 "mybucket" envOK ["mybucket"] rfl (by decide) (by decide)

/-- C7 counterexample: the single-line input "Summary" is non-blank, yet
all three output buffers come back empty: the header line is consumed
and appears in no buffer, refuting the claim that every non-blank input
line lands in exactly one buffer. -/
theorem c7_counterexample :
    rustLines "Summary" = ["Summary"] ∧
    rustTrim "Summary" ≠ "" ∧
    parse_summary_sections "Summary" = ("", "", "") := by
  refine ⟨?_, ?_, ?_⟩ <;> decide

/-- C7 (amended): every non-blank input line that is not a section
header lands in exactly one of the three buffers: the concatenation of
the three line buffers is a permutation of the kept (non-header,
non-blank) input lines, and `parse_summary_sections` returns exactly the
trimmed newline-joins of those buffers.  Header lines (containing
"summary", "key points", "action item" or "next step"
case-insensitively) are consumed and land in no buffer. -/
theorem c7_classifier_partitions_kept_lines (input : String) :
    (((classifyLines "" (rustLines input)).1 ++ (classifyLines "" (rustLines input)).2.1 ++
        (classifyLines "" (rustLines input)).2.2).Perm
      ((rustLines input).filter keepLine)) ∧
    parse_summary_sections input =
      (rustTrim (joinLinesNl (classifyLines "" (rustLines input)).1),
       rustTrim (joinLinesNl (classifyLines "" (rustLines input)).2.1),
       rustTrim (joinLinesNl (classifyLines "" (rustLines input)).2.2)) :=
  ⟨classify_partition (rustLines input) "", rfl⟩

/-- C8: the region-aware client factory maps an empty reported location
constraint to the provider default region us-east-1, and uses any
non-empty constraint verbatim as the region. -/
theorem c8_empty_constraint_defaults (lc : String) :
    bucket_region (.ok (some "")) = .ok "us-east-1" ∧
    (lc ≠ "" → bucket_region (.ok (some lc)) = .ok lc) := by
  constructor
  · rfl
  · intro h
    simp [bucket_region, h]

/-- Witness for C8 at a concrete non-empty location constraint. -/
theorem c8_empty_constraint_defaults_witness :
    bucket_region (.ok (some "eu-west-1")) = .ok "eu-west-1" :=
  (c8_empty_constraint_defaults "eu-west-1").2 (by decide)

/-- C9: with the Slack sink selected and no webhook endpoint configured,
a run whose remote stages all succeed completes successfully, prints the
skip warning, prints the summary locally, and makes zero notification
posts. -/
theorem c9_slack_without_endpoint (cfg : Config) (opt : Opt) (env : Env)
    (l : List String) (r cp tstr sstr fn : String)
    (h1 : opt.output_filename = none)
    (h2 : opt.output_type = some OutputType.Slack)
    (h3 : cfg.slack_webhook_endpoint = "")
    (h4 : env.listBuckets = .ok l)
    (h5 : cfg.s3_bucket_name ≠ "")
    (h6 : cfg.s3_bucket_name ∈ l)
    (h7 : env.getBucketLocation cfg.s3_bucket_name = .ok (some r))
    (h8 : rustFileName opt.input_audio_file = some fn)
    (h9 : env.pathExists (env.tilde opt.input_audio_file) = true)
    (h10 : env.canonicalize (env.tilde opt.input_audio_file) = .ok cp)
    (h11 : env.loadBody cp = .ok ())
    (h12 : env.putObject cfg.s3_bucket_name fn = .ok ())
    (h13 : env.transcribe = .ok tstr)
    (h14 : env.summarize = .ok sstr)
    (h15 : opt.delete_s3_object ≠ "Y") :
    (runMain cfg opt env).1 = .ok () ∧
    countE Event.isPost (runMain cfg opt env).2 = 0 ∧
    Event.print slackSkipMsg ∈ (runMain cfg opt env).2 ∧
    Event.print (summaryPrintLine sstr) ∈ (runMain cfg opt env).2 := by
  have hot : resolveOutputType opt.output_filename opt.output_type =
      .ok (OutputType.Slack, []) := by
    rw [h1, h2]
    rfl
  have hb : resolveBucketT cfg.s3_bucket_name env =
      (.ok cfg.s3_bucket_name,
       [Event.listBucketsCall, Event.print ("S3 bucket name: " ++ cfg.s3_bucket_name)]) := by
    simp [resolveBucketT, h4, h5, h6]
  have hr : bucket_region (env.getBucketLocation cfg.s3_bucket_name) =
      .ok (if r = "" then "us-east-1" else r) := by
    rw [h7]
    by_cases hre : r = ""
    · simp [bucket_region, hre]
    · simp [bucket_region, hre]
  have hrend : renderStage cfg env OutputType.Slack opt.output_filename
      opt.input_audio_file sstr tstr =
      (.ok (), [Event.print slackSkipMsg, Event.print (summaryPrintLine sstr)]) := by
    simp [renderStage, h3]
  simp [runMain, hot, hb, hr, h8, h9, h10, h11, h12, h13, h14, hrend, h15,
    countE_append, countE_cons, countE_nil, Event.isPost, List.mem_append, List.mem_cons]

/-- Witness for C9 at a fully concrete successful Slack-without-endpoint run. -/
theorem c9_slack_without_endpoint_witness :
    (runMain cfgOK optSlackReq envOK).1 = .ok () ∧
    countE Event.isPost (runMain cfgOK optSlackReq envOK).2 = 0 ∧
    Event.print slackSkipMsg ∈ (runMain cfgOK optSlackReq envOK).2 ∧
    Event.print (summaryPrintLine "S") ∈ (runMain cfgOK optSlackReq envOK).2 :=
  c9_slack_without_endpoint cfgOK optSlackReq envOK ["mybucket"] "eu-west-1" "audio.mp3" "T" "S"
    "audio.mp3" rfl rfl rfl rfl (by decide) (by decide) rfl (by decide) rfl rfl rfl rfl rfl rfl
    (by decide)

/-- C10: every non-Slack sink emits the summary followed by the full
transcription: the rendered content decomposes as a prefix, the summary,
a separator, and a transcription part whose characters are exactly the
transcription's in order, except that the Markdown sink inserts newline
characters before speaker tags (captured by equality of the non-newline
character sequences). -/
theorem c10_sinks_emit_summary_then_transcription (t : OutputType) (s tr : String)
    (ht : t ≠ OutputType.Slack) :
    ∃ (pre mid tpart : List Char),
      (renderedContent t s tr).map String.data = some (pre ++ s.data ++ mid ++ tpart) ∧
      tpart.filter (fun c => !(c == nlChar)) = tr.data.filter (fun c => !(c == nlChar)) := by
  cases t with
  | Slack => exact absurd rfl ht
  | Word =>
    refine ⟨[], ("\n\n" ++ "Transcription:\n").data, tr.data, ?_, rfl⟩
    simp [renderedContent, wordContent, strData_append]
  | Text =>
    refine ⟨[], "\n\nTranscription:\n".data, tr.data, ?_, rfl⟩
    simp [renderedContent, textContent, strData_append]
  | Terminal =>
    refine ⟨"Summary:\n".data, ("\n" ++ "Transcription:\n").data, (tr ++ "\n").data, ?_, ?_⟩
    · simp [renderedContent, terminalText, strData_append]
    · simp [strData_append, List.filter_append, nl_str_filter]
      decide
  | Markdown =>
    refine ⟨"# Summary\n\n".data, "\n\n# Transcription\n\n".data, replaceSpk tr.data, ?_,
      replaceSpk_filter tr.data⟩
    simp only [renderedContent, markdownContent, strData_append, Option.map_some]
    rw [replaceSpk_header tr.data]
    simp

/-- Witness for C10 at the Text sink with concrete strings. -/
theorem c10_sinks_emit_summary_then_transcription_witness :
    ∃ (pre mid tpart : List Char),
      (renderedContent OutputType.Text "S" "T").map String.data =
        some (pre ++ "S".data ++ mid ++ tpart) ∧
      tpart.filter (fun c => !(c == nlChar)) = "T".data.filter (fun c => !(c == nlChar)) :=
  c10_sinks_emit_summary_then_transcription OutputType.Text "S" "T" (by decide)

end Distill
